import Mathlib

/-!
Verification of the Reference Extraction & Quality-Scoring Pipeline of the
PDF Reference Extraction Agent (`src/agents/pdf_reference_extraction_agent.py`).

Texts are modelled as lists of characters (`Str`).  Python's regular
expressions are embedded by a small executable backtracking engine
(leftmost search, left-biased alternation, greedy/lazy quantifiers,
capture groups, lookahead, the `IGNORECASE` and `MULTILINE` flags), and
every pattern of the source is transcribed into the engine's syntax.
Scores are modelled as exact rationals.
-/

/-- Texts are lists of characters. -/
abbrev Str := List Char

/-- Shorthand turning a string literal into a character list. -/
def str (s : String) : Str := s.data

/-- Python `str.isspace` characters relevant to `\s`, `strip()` and `split()`. -/
def isPySpace (c : Char) : Bool :=
  c = ' ' ∨ c = '\t' ∨ c = '\n' ∨ c = '\r' ∨ c = '\x0b' ∨ c = '\x0c'

/-- Python `str.lower()` (ASCII, which covers every character the agent handles). -/
def lowerStr (s : Str) : Str := s.map Char.toLower

/-- Python `str.strip()` with no argument: drop leading and trailing whitespace. -/
def pyStrip (s : Str) : Str :=
  ((s.dropWhile isPySpace).reverse.dropWhile isPySpace).reverse

/-- Python `str.strip(chars)`: drop leading and trailing characters of `chs`. -/
def pyStripSet (s : Str) (chs : Str) : Str :=
  ((s.dropWhile (chs.contains ·)).reverse.dropWhile (chs.contains ·)).reverse

/-- Helper for `pySplit`: accumulates the current word (reversed). -/
def pySplitAux : Str → Str → List Str
  | [], acc => if acc = [] then [] else [acc.reverse]
  | c :: rest, acc =>
    if isPySpace c then
      if acc = [] then pySplitAux rest [] else acc.reverse :: pySplitAux rest []
    else pySplitAux rest (c :: acc)

/-- Python `str.split()` with no argument: split on whitespace runs, no empties. -/
def pySplit (s : Str) : List Str := pySplitAux s []

/-- Helper for `collapseWs`: the flag records whether we are inside a whitespace run. -/
def collapseWsAux : Str → Bool → Str
  | [], _ => []
  | c :: rest, inRun =>
    if isPySpace c then
      if inRun then collapseWsAux rest true else ' ' :: collapseWsAux rest true
    else c :: collapseWsAux rest false

/-- Python `re.sub(r'\s+', ' ', text)`: each whitespace run becomes one space. -/
def collapseWs (s : Str) : Str := collapseWsAux s false

/-- Python `str.isdigit()` over ASCII: nonempty and all digits. -/
def pyIsDigit (s : Str) : Bool := ¬ s = [] ∧ s.all Char.isDigit

/-- Python `int(...)` on a digit string. -/
def digitsToInt (s : Str) : Int :=
  (s.foldl (fun n c => n * 10 + (c.toNat - '0'.toNat)) 0 : Nat)

/-! ## A backtracking regular-expression engine

The engine mirrors Python `re` on the constructs the agent's patterns use:
character literals and classes, concatenation, left-biased alternation,
greedy and lazy Kleene star, capture groups, lookahead `(?=...)`, the
`$` anchor (honouring `MULTILINE`), and the `IGNORECASE` flag.
Backtracking is made total by a fuel parameter; all concrete evaluations
use a fuel far larger than any possible backtracking depth.
-/

/-- One item of a character class. -/
inductive CItem where
  | ch (c : Char)
  | range (lo hi : Char)
  | digit
  | space
deriving DecidableEq, Repr

/-- Regular expression syntax. `star true` is greedy `*`, `star false` is lazy `*?`. -/
inductive RE where
  | eps
  | lit (c : Char)
  | cls (neg : Bool) (items : List CItem)
  | seq (a b : RE)
  | alt (a b : RE)
  | star (greedy : Bool) (a : RE)
  | grp (idx : Nat) (a : RE)
  | look (a : RE)
  | dollar
deriving DecidableEq, Repr

/-- Base membership of a character in a class item. -/
def citemMatch (it : CItem) (c : Char) : Bool :=
  match it with
  | .ch a => c = a
  | .range lo hi => lo ≤ c ∧ c ≤ hi
  | .digit => c.isDigit
  | .space => isPySpace c

/-- Class membership with case folding under `IGNORECASE` (like Python `re`). -/
def clsMatch (ci neg : Bool) (items : List CItem) (c : Char) : Bool :=
  let base := items.any (fun it => citemMatch it c) ∨
    (ci ∧ (items.any (fun it => citemMatch it c.toLower) ∨
           items.any (fun it => citemMatch it c.toUpper)))
  if neg then ¬ base else base

/-- Literal comparison with case folding under `IGNORECASE`. -/
def charEqCI (ci : Bool) (a c : Char) : Bool :=
  if ci then a.toLower = c.toLower else a = c

/-- Captured groups: latest binding first. -/
abbrev Caps := List (Nat × Str)

/-- Backtracking matcher in continuation-passing style.  `ci` is `IGNORECASE`,
`ml` is `MULTILINE` (only `$` depends on it).  Fuel bounds recursion depth. -/
def matRE (ci ml : Bool) : Nat → RE → Str → Caps → (Str → Caps → Option (Str × Caps)) → Option (Str × Caps)
  | 0, _, _, _, _ => none
  | _ + 1, .eps, s, cp, k => k s cp
  | _ + 1, .lit c, s, cp, k =>
    match s with
    | [] => none
    | a :: rest => if charEqCI ci a c then k rest cp else none
  | _ + 1, .cls neg items, s, cp, k =>
    match s with
    | [] => none
    | a :: rest => if clsMatch ci neg items a then k rest cp else none
  | f + 1, .seq p q, s, cp, k => matRE ci ml f p s cp (fun s1 c1 => matRE ci ml f q s1 c1 k)
  | f + 1, .alt p q, s, cp, k =>
    match matRE ci ml f p s cp k with
    | some r => some r
    | none => matRE ci ml f q s cp k
  | f + 1, .star gr p, s, cp, k =>
    if gr then
      match matRE ci ml f p s cp
          (fun s1 c1 => if s1.length = s.length then none else matRE ci ml f (.star gr p) s1 c1 k) with
      | some r => some r
      | none => k s cp
    else
      match k s cp with
      | some r => some r
      | none => matRE ci ml f p s cp
          (fun s1 c1 => if s1.length = s.length then none else matRE ci ml f (.star gr p) s1 c1 k)
  | f + 1, .grp i p, s, cp, k =>
    matRE ci ml f p s cp (fun s1 c1 => k s1 ((i, s.take (s.length - s1.length)) :: c1))
  | f + 1, .look p, s, cp, k =>
    match matRE ci ml f p s cp (fun s1 c1 => some (s1, c1)) with
    | some (_, c1) => k s c1
    | none => none
  | _ + 1, .dollar, s, cp, k =>
    match s with
    | [] => k s cp
    | c :: _ => if ml ∧ c = '\n' then k s cp else none

/-- Fuel for every concrete evaluation: far beyond any backtracking depth here. -/
def reFuel : Nat := 1000000

/-- Anchored match at the start of `s` (Python `re.match` position 0). -/
def matchAt (ci ml : Bool) (re : RE) (s : Str) : Option (Str × Caps) :=
  matRE ci ml reFuel re s [] (fun s1 c1 => some (s1, c1))

/-- Scanning helper for `reSearch`: `pre` is the reversed scanned prefix. -/
def searchAux (ci ml : Bool) (re : RE) : Str → Str → Option (Str × Str × Str × Caps)
  | pre, s =>
    match matchAt ci ml re s with
    | some (rest, cp) => some (pre.reverse, s.take (s.length - rest.length), rest, cp)
    | none =>
      match s with
      | [] => none
      | c :: s1 => searchAux ci ml re (c :: pre) s1

/-- Python `re.search`: leftmost match; returns (before, matched, after, captures). -/
def reSearch (ci ml : Bool) (re : RE) (s : Str) : Option (Str × Str × Str × Caps) :=
  searchAux ci ml re [] s

/-- Value of capture group `i` (Python `match.group(i)`), if it participated. -/
def capStr (cp : Caps) (i : Nat) : Option Str :=
  (cp.find? (fun p => p.1 = i)).map (·.2)

/-- Combinators used to transcribe the source's pattern strings. -/
def rseq (l : List RE) : RE := l.foldr .seq .eps

/-- A literal string as a regex. -/
def rstr (s : String) : RE := rseq (s.data.map .lit)

/-- Greedy `+`. -/
def rplus (r : RE) : RE := .seq r (.star true r)

/-- Greedy `?`. -/
def ropt (r : RE) : RE := .alt r .eps

/-- Pattern `r{0,n}` (greedy), used to expand bounded repetitions. -/
def rupTo : Nat → RE → RE
  | 0, _ => .eps
  | n + 1, r => ropt (.seq r (rupTo n r))

/-! ## Character classes appearing in the source's patterns -/

/-- Pattern `[A-Z]` -/
def clU : RE := .cls false [.range 'A' 'Z']

/-- Pattern `[a-z]` -/
def clL : RE := .cls false [.range 'a' 'z']

/-- Pattern `\d` -/
def clD : RE := .cls false [.digit]

/-- Pattern `\s` -/
def clS : RE := .cls false [.space]

/-- Pattern `[^\s]` and `\S` -/
def clNS : RE := .cls true [.space]

/-- Pattern `[^.]` -/
def clNDot : RE := .cls true [.ch '.']

/-- Pattern `[^,]` -/
def clNComma : RE := .cls true [.ch ',']

/-- Pattern `[^"]` -/
def clNQuote : RE := .cls true [.ch '"']

/-- Pattern `[^0-9]` -/
def clNDigit : RE := .cls true [.digit]

/-- Pattern `[^:]` -/
def clNColon : RE := .cls true [.ch ':']

/-- Pattern `[\d-]` -/
def clDigDash : RE := .cls false [.digit, .ch '-']

/-- Pattern `[^[\n]` -/
def clNBrNl : RE := .cls true [.ch '[', .ch '\n']

/-- Pattern `[\dX]` -/
def clDigX : RE := .cls false [.digit, .ch 'X']

/-- Pattern `\d{4}` -/
def d4 : RE := rseq [clD, clD, clD, clD]

/-! ## Citation-style patterns (`_initialize_citation_patterns`) -/

/-- Pattern `(?:,\s*[A-Z]\.(?:\s*[A-Z]\.)?)*` — initials after a surname in the APA patterns. -/
def apaInitials : RE :=
  .star true (rseq [.lit ',', .star true clS, clU, .lit '.',
    ropt (rseq [.star true clS, clU, .lit '.'])])

/-- APA journal pattern:
`([A-Z][a-z]+(?:,\s*[A-Z]\.(?:\s*[A-Z]\.)?)*)\s*\((\d{4})\)\.\s*([^.]+)\.\s*([^,]+)(?:,\s*(\d+)(?:\((\d+)\))?)(?:,\s*([\d-]+))?` -/
def apa1 : RE := rseq [
  .grp 1 (rseq [clU, rplus clL, apaInitials]),
  .star true clS, .lit '(', .grp 2 d4, .lit ')', .lit '.', .star true clS,
  .grp 3 (rplus clNDot), .lit '.', .star true clS,
  .grp 4 (rplus clNComma),
  .lit ',', .star true clS, .grp 5 (rplus clD),
  ropt (rseq [.lit '(', .grp 6 (rplus clD), .lit ')']),
  ropt (rseq [.lit ',', .star true clS, .grp 7 (rplus clDigDash)])]

/-- APA book pattern:
`([A-Z][a-z]+(?:,\s*[A-Z]\.(?:\s*[A-Z]\.)?)*(?:,?\s*&\s*[A-Z][a-z]+(?:,\s*[A-Z]\.(?:\s*[A-Z]\.)?)*)*)\s*\((\d{4})\)\.\s*([^.]+)\.\s*([^.]+)\.` -/
def apa2 : RE := rseq [
  .grp 1 (rseq [clU, rplus clL, apaInitials,
    .star true (rseq [ropt (.lit ','), .star true clS, .lit '&', .star true clS,
      clU, rplus clL, apaInitials])]),
  .star true clS, .lit '(', .grp 2 d4, .lit ')', .lit '.', .star true clS,
  .grp 3 (rplus clNDot), .lit '.', .star true clS,
  .grp 4 (rplus clNDot), .lit '.']

/-- Pattern `[A-Z][a-z]+,\s*[A-Z][a-z]+` — the MLA author form. -/
def mlaAuthor : RE := rseq [clU, rplus clL, .lit ',', .star true clS, clU, rplus clL]

/-- MLA journal pattern:
`([A-Z][a-z]+,\s*[A-Z][a-z]+)\.\s*"([^"]+)"\.\s*([^,]+),\s*vol\.\s*(\d+)(?:,\s*no\.\s*(\d+))?,\s*(\d{4}),\s*pp\.\s*([\d-]+)` -/
def mla1 : RE := rseq [
  .grp 1 mlaAuthor, .lit '.', .star true clS,
  .lit '"', .grp 2 (rplus clNQuote), .lit '"', .lit '.', .star true clS,
  .grp 3 (rplus clNComma), .lit ',', .star true clS,
  rstr "vol.", .star true clS, .grp 4 (rplus clD),
  ropt (rseq [.lit ',', .star true clS, rstr "no.", .star true clS, .grp 5 (rplus clD)]),
  .lit ',', .star true clS, .grp 6 d4, .lit ',', .star true clS,
  rstr "pp.", .star true clS, .grp 7 (rplus clDigDash)]

/-- MLA book pattern: `([A-Z][a-z]+,\s*[A-Z][a-z]+)\.\s*([^.]+)\.\s*([^,]+),\s*(\d{4})\.` -/
def mla2 : RE := rseq [
  .grp 1 mlaAuthor, .lit '.', .star true clS,
  .grp 2 (rplus clNDot), .lit '.', .star true clS,
  .grp 3 (rplus clNComma), .lit ',', .star true clS, .grp 4 d4, .lit '.']

/-- Pattern `[A-Z][a-z]+,\s*[A-Z][a-z]+(?:\s+[A-Z][a-z]+)*` — the Chicago author form. -/
def chiAuthor : RE := rseq [clU, rplus clL, .lit ',', .star true clS, clU, rplus clL,
  .star true (rseq [rplus clS, clU, rplus clL])]

/-- Chicago journal pattern:
`([A-Z][a-z]+,\s*[A-Z][a-z]+(?:\s+[A-Z][a-z]+)*)\.\s*"([^"]+)"\.\s*([^0-9]+)\s*(\d+)(?:,\s*no\.\s*(\d+))?\s*\((\d{4})\):\s*([\d-]+)` -/
def chi1 : RE := rseq [
  .grp 1 chiAuthor, .lit '.', .star true clS,
  .lit '"', .grp 2 (rplus clNQuote), .lit '"', .lit '.', .star true clS,
  .grp 3 (rplus clNDigit), .star true clS, .grp 4 (rplus clD),
  ropt (rseq [.lit ',', .star true clS, rstr "no.", .star true clS, .grp 5 (rplus clD)]),
  .star true clS, .lit '(', .grp 6 d4, .lit ')', .lit ':', .star true clS,
  .grp 7 (rplus clDigDash)]

/-- Chicago book pattern:
`([A-Z][a-z]+,\s*[A-Z][a-z]+(?:\s+[A-Z][a-z]+)*)\.\s*([^.]+)\.\s*[^:]+:\s*([^,]+),\s*(\d{4})\.` -/
def chi2 : RE := rseq [
  .grp 1 chiAuthor, .lit '.', .star true clS,
  .grp 2 (rplus clNDot), .lit '.', .star true clS,
  rplus clNColon, .lit ':', .star true clS,
  .grp 3 (rplus clNComma), .lit ',', .star true clS, .grp 4 d4, .lit '.']

/-- Pattern `[A-Z]\.\s*[A-Z][a-z]+(?:,\s*[A-Z]\.\s*[A-Z][a-z]+)*` — the IEEE author form. -/
def ieeeAuthor : RE := rseq [clU, .lit '.', .star true clS, clU, rplus clL,
  .star true (rseq [.lit ',', .star true clS, clU, .lit '.', .star true clS, clU, rplus clL])]

/-- IEEE journal pattern:
`\[(\d+)\]\s*([A-Z]\.\s*[A-Z][a-z]+(?:,\s*[A-Z]\.\s*[A-Z][a-z]+)*),\s*"([^"]+)",\s*([^,]+),\s*vol\.\s*(\d+)(?:,\s*no\.\s*(\d+))?,\s*pp\.\s*([\d-]+),\s*(\d{4})` -/
def ieee1 : RE := rseq [
  .lit '[', .grp 1 (rplus clD), .lit ']', .star true clS,
  .grp 2 ieeeAuthor, .lit ',', .star true clS,
  .lit '"', .grp 3 (rplus clNQuote), .lit '"', .lit ',', .star true clS,
  .grp 4 (rplus clNComma), .lit ',', .star true clS,
  rstr "vol.", .star true clS, .grp 5 (rplus clD),
  ropt (rseq [.lit ',', .star true clS, rstr "no.", .star true clS, .grp 6 (rplus clD)]),
  .lit ',', .star true clS, rstr "pp.", .star true clS, .grp 7 (rplus clDigDash),
  .lit ',', .star true clS, .grp 8 d4]

/-- IEEE book pattern:
`\[(\d+)\]\s*([A-Z]\.\s*[A-Z][a-z]+(?:,\s*[A-Z]\.\s*[A-Z][a-z]+)*),\s*([^.]+)\.\s*([^,]+),\s*(\d{4})\.` -/
def ieee2 : RE := rseq [
  .lit '[', .grp 1 (rplus clD), .lit ']', .star true clS,
  .grp 2 ieeeAuthor, .lit ',', .star true clS,
  .grp 3 (rplus clNDot), .lit '.', .star true clS,
  .grp 4 (rplus clNComma), .lit ',', .star true clS, .grp 5 d4, .lit '.']

/-- A style pattern together with its number of capture groups (`len(match.groups())`). -/
structure StylePattern where
  re : RE
  ngroups : Nat
deriving DecidableEq, Repr

/-- Python `_initialize_citation_patterns`: the ordered style dictionary
(`apa`, `mla`, `chicago`, `ieee`, each style's patterns in listed order). -/
def citation_patterns : List (Str × List StylePattern) :=
  [(str "apa", [⟨apa1, 7⟩, ⟨apa2, 4⟩]),
   (str "mla", [⟨mla1, 7⟩, ⟨mla2, 4⟩]),
   (str "chicago", [⟨chi1, 7⟩, ⟨chi2, 4⟩]),
   (str "ieee", [⟨ieee1, 8⟩, ⟨ieee2, 5⟩])]

/-! ## Auxiliary metadata patterns (`_extract_additional_metadata`) -/

/-- Pattern `(?:doi:|DOI:)\s*(10\.\d+/[^\s]+)` (IGNORECASE) -/
def doiPattern : RE := rseq [.alt (rstr "doi:") (rstr "DOI:"), .star true clS,
  .grp 1 (rseq [rstr "10.", rplus clD, .lit '/', rplus clNS])]

/-- Pattern `(https?://[^\s]+)` -/
def urlPattern : RE := .grp 1 (rseq [rstr "http", ropt (.lit 's'), rstr "://", rplus clNS])

/-- Pattern `(?:ISBN:?\s*)((?:\d{3}-)?\d{1,5}-\d{1,7}-\d{1,7}-[\dX])` (IGNORECASE) -/
def isbnPattern : RE := rseq [rstr "ISBN", ropt (.lit ':'), .star true clS,
  .grp 1 (rseq [ropt (rseq [clD, clD, clD, .lit '-']),
    clD, rupTo 4 clD, .lit '-', clD, rupTo 6 clD, .lit '-', clD, rupTo 6 clD, .lit '-', clDigX])]

/-- Pattern `(?:vol\.?\s*|volume\s*)(\d+)` (IGNORECASE) -/
def volumePattern : RE := rseq [
  .alt (rseq [rstr "vol", ropt (.lit '.'), .star true clS]) (rseq [rstr "volume", .star true clS]),
  .grp 1 (rplus clD)]

/-- Pattern `(?:no\.?\s*|issue\s*|number\s*)(\d+)` (IGNORECASE) -/
def issuePattern : RE := rseq [
  .alt (rseq [rstr "no", ropt (.lit '.'), .star true clS])
    (.alt (rseq [rstr "issue", .star true clS]) (rseq [rstr "number", .star true clS])),
  .grp 1 (rplus clD)]

/-- Pattern `(?:pp?\.?\s*|pages?\s*)([\d-]+)` (IGNORECASE) -/
def pagesPattern : RE := rseq [
  .alt (rseq [.lit 'p', ropt (.lit 'p'), ropt (.lit '.'), .star true clS])
    (rseq [rstr "page", ropt (.lit 's'), .star true clS]),
  .grp 1 (rplus clDigDash)]

/-! ## Section, segmentation and numbered-reference patterns -/

/-- The five section-header patterns of `_find_references_section`
(`(?i)\n\s*references\s*\n` and friends). -/
def sectionPatterns : List RE :=
  [rseq [.lit '\n', .star true clS, rstr "references", .star true clS, .lit '\n'],
   rseq [.lit '\n', .star true clS, rstr "bibliography", .star true clS, .lit '\n'],
   rseq [.lit '\n', .star true clS, rstr "works", rplus clS, rstr "cited", .star true clS, .lit '\n'],
   rseq [.lit '\n', .star true clS, rstr "literature", rplus clS, rstr "cited", .star true clS, .lit '\n'],
   rseq [.lit '\n', .star true clS, rstr "citations", .star true clS, .lit '\n']]

/-- The four end-of-section patterns of `_find_references_section`
(`(?i)\n\s*appendix`, `acknowledgments?`, `author\s+information`, `about\s+the\s+authors?`). -/
def endPatterns : List RE :=
  [rseq [.lit '\n', .star true clS, rstr "appendix"],
   rseq [.lit '\n', .star true clS, rstr "acknowledgment", ropt (.lit 's')],
   rseq [.lit '\n', .star true clS, rstr "author", rplus clS, rstr "information"],
   rseq [.lit '\n', .star true clS, rstr "about", rplus clS, rstr "the", rplus clS,
     rstr "author", ropt (.lit 's')]]

/-- The four anchored patterns of `_is_reference_start`
(`^\[\d+\]`, `^\d+\.`, `^[A-Z][a-z]+,\s*[A-Z]`, `^[A-Z][a-z]+,\s*[A-Z][a-z]+`). -/
def startPatterns : List RE :=
  [rseq [.lit '[', rplus clD, .lit ']'],
   rseq [rplus clD, .lit '.'],
   rseq [clU, rplus clL, .lit ',', .star true clS, clU],
   rseq [clU, rplus clL, .lit ',', .star true clS, clU, rplus clL]]

/-- Python `_find_numbered_references`'s pattern (MULTILINE):
`\[(\d+)\]\s*([^[\n]+(?:\n[^[\n]+)*?)(?=\[\d+\]|\n\s*\n|$)` -/
def numberedRefPattern : RE := rseq [
  .lit '[', .grp 1 (rplus clD), .lit ']', .star true clS,
  .grp 2 (rseq [rplus clNBrNl, .star false (rseq [.lit '\n', rplus clNBrNl])]),
  .look (.alt (rseq [.lit '[', rplus clD, .lit ']'])
    (.alt (rseq [.lit '\n', .star true clS, .lit '\n']) .dollar))]

/-! ## Data model (`ExtractedReference`) -/

/-- The `ExtractedReference`: the structured record for one extracted reference.
The `authors is None → []` normalisation of `__post_init__` is built into the default. -/
structure ExtractedReference where
  reference_number : Option Int := none
  full_text : Str := []
  authors : List Str := []
  title : Str := []
  year : Option Int := none
  venue : Str := []
  volume : Str := []
  issue : Str := []
  pages : Str := []
  doi : Str := []
  url : Str := []
  isbn : Str := []
  reference_type : Str := []
  citation_style : Str := []
  confidence_score : ℚ := 0
  extraction_notes : Str := []
deriving DecidableEq, Repr

instance : Inhabited ExtractedReference := ⟨{}⟩

/-! ## Metadata enrichment (`_extract_additional_metadata`, `_determine_reference_type`) -/

/-- Group 1 of the leftmost match of `re`, if any (used for each metadata field). -/
def searchG1 (ci : Bool) (re : RE) (s : Str) : Option Str :=
  match reSearch ci false re s with
  | some (_, _, _, cp) => some ((capStr cp 1).getD [])
  | none => none

/-- Is the lowercase keyword a substring of the lowercased text (Python `k in text.lower()`)? -/
def kwIn (s : Str) (k : String) : Bool := decide (str k <:+: lowerStr s)

/-- Python `_determine_reference_type`: keyword-priority classification. -/
def determine_reference_type (ref_text : Str) : Str :=
  if kwIn ref_text "journal" ∨ kwIn ref_text "vol." ∨ kwIn ref_text "volume" ∨
      kwIn ref_text "issue" then str "journal"
  else if kwIn ref_text "proceedings" ∨ kwIn ref_text "conference" ∨
      kwIn ref_text "symposium" then str "conference"
  else if kwIn ref_text "book" ∨ kwIn ref_text "publisher" ∨ kwIn ref_text "press" then
    str "book"
  else if kwIn ref_text "http://" ∨ kwIn ref_text "https://" ∨ kwIn ref_text "www." then
    str "website"
  else if kwIn ref_text "thesis" ∨ kwIn ref_text "dissertation" then str "thesis"
  else str "unknown"

/-- Python `_extract_additional_metadata`: each field is set to the pattern's group 1 when
the pattern matches and kept unchanged otherwise; `reference_type` is always set. -/
def extract_additional_metadata (r : ExtractedReference) (ref_text : Str) : ExtractedReference :=
  { r with
    doi := (searchG1 true doiPattern ref_text).getD r.doi,
    url := (searchG1 false urlPattern ref_text).getD r.url,
    isbn := (searchG1 true isbnPattern ref_text).getD r.isbn,
    volume := (searchG1 true volumePattern ref_text).getD r.volume,
    issue := (searchG1 true issuePattern ref_text).getD r.issue,
    pages := (searchG1 true pagesPattern ref_text).getD r.pages,
    reference_type := determine_reference_type ref_text }

/-! ## Style matching (`_parse_single_reference`, `_create_reference_from_match`) -/

/-- First matching pattern of one style's list, with its captures. -/
def firstPatternMatch (pats : List StylePattern) (s : Str) : Option (StylePattern × Caps) :=
  match pats with
  | [] => none
  | p :: rest =>
    match reSearch false false p.re s with
    | some (_, _, _, cp) => some (p, cp)
    | none => firstPatternMatch rest s

/-- The first match across the ordered style dictionary (first pattern wins). -/
def styleFirstMatch : List (Str × List StylePattern) → Str → Option (Str × StylePattern × Caps)
  | [], _ => none
  | (style, pats) :: rest, s =>
    match firstPatternMatch pats s with
    | some (p, cp) => some (style, p, cp)
    | none => styleFirstMatch rest s

/-- Capture group `i` or the empty string (the source only reads participating groups). -/
def capG (cp : Caps) (i : Nat) : Str := (capStr cp i).getD []

/-- Python `_create_reference_from_match`: style tag and 0.8 confidence always; `authors`,
`year`, `title`, `venue` only populated for the `apa` and `ieee` branches. -/
def create_reference_from_match (cp : Caps) (ng : Nat) (ref_text : Str) (ref_number : Int)
    (style : Str) : ExtractedReference :=
  let base : ExtractedReference :=
    { reference_number := some ref_number, full_text := ref_text,
      citation_style := style, confidence_score := 4/5 }
  let r :=
    if style = str "apa" ∧ 3 ≤ ng then
      { base with
        authors := [pyStrip (capG cp 1)],
        year := if pyIsDigit (capG cp 2) then some (digitsToInt (capG cp 2)) else none,
        title := pyStrip (capG cp 3),
        venue := if 3 < ng then pyStrip (capG cp 4) else base.venue }
    else if style = str "ieee" ∧ 4 ≤ ng then
      if pyIsDigit (capG cp 1) then
        { base with
          reference_number := some (digitsToInt (capG cp 1)),
          authors := [pyStrip (capG cp 2)],
          title := pyStrip (capG cp 3),
          venue := pyStrip (capG cp 4) }
      else base
    else base
  extract_additional_metadata r ref_text

/-- Python `_parse_single_reference`: first style pattern that matches wins; otherwise the
minimal 0.3-confidence record (the source always returns a record, never `None`). -/
def parse_single_reference (ref_text0 : Str) (ref_number : Int) : ExtractedReference :=
  let ref_text := pyStrip ref_text0
  match styleFirstMatch citation_patterns ref_text with
  | some (style, p, cp) => create_reference_from_match cp p.ngroups ref_text ref_number style
  | none =>
    { reference_number := some ref_number, full_text := ref_text,
      confidence_score := 3/10,
      extraction_notes := str "Pattern matching failed, basic extraction only" }

/-! ## Reference segmentation (`_split_into_references`, `_is_reference_start`) -/

/-- A `[<digits>]` marker starting exactly here: the maximal digit run after `[`
followed by `]` (the backtracking semantics of `\[(\d+)\]` at one position). -/
def tryMarkerHere (c : Char) (rest : Str) : Option (Str × Str) :=
  if c = '[' then
    match rest.dropWhile Char.isDigit with
    | ']' :: after =>
      if rest.takeWhile Char.isDigit = [] then none
      else some (rest.takeWhile Char.isDigit, after)
    | _ => none
  else none

/-- Leftmost `[<digits>]` marker: returns (text before, digits, text after). -/
def findMarker : Str → Option (Str × Str × Str)
  | [] => none
  | c :: rest =>
    match tryMarkerHere c rest with
    | some (ds, after) => some ([], ds, after)
    | none =>
      match findMarker rest with
      | some (pre, ds, after) => some (c :: pre, ds, after)
      | none => none

/-- On success, `tryMarkerHere` consumes at least the closing bracket. -/
theorem tryMarkerHere_length (c : Char) (rest ds after : Str)
    (h : tryMarkerHere c rest = some (ds, after)) : after.length < rest.length := by
  unfold tryMarkerHere at h
  by_cases hc : c = '['
  · simp only [hc, if_true] at h
    cases hdw : rest.dropWhile Char.isDigit with
    | nil => rw [hdw] at h; exact absurd h (by simp)
    | cons c2 r2 =>
      rw [hdw] at h
      by_cases hc2 : c2 = ']'
      · subst hc2
        by_cases he : rest.takeWhile Char.isDigit = []
        · simp [he] at h
        · simp only [he, if_false, Option.some.injEq, Prod.mk.injEq] at h
          obtain ⟨_, h2⟩ := h
          subst h2
          have h3 : r2.length < rest.length := by
            have h4 : (rest.dropWhile Char.isDigit).length ≤ rest.length :=
              (List.dropWhile_sublist _).length_le
            rw [hdw] at h4
            simpa using Nat.lt_of_lt_of_le (by simp) h4
          exact h3
      · exact absurd h (by simp [hc2])
  · simp [hc] at h

/-- On success, `findMarker` strictly shrinks the remaining text. -/
theorem findMarker_length (s pre ds after : Str)
    (h : findMarker s = some (pre, ds, after)) : after.length < s.length := by
  induction s generalizing pre ds after with
  | nil => simp [findMarker] at h
  | cons c rest ih =>
    simp only [findMarker] at h
    cases hmk : tryMarkerHere c rest with
    | some v =>
      obtain ⟨ds1, after1⟩ := v
      rw [hmk] at h
      simp only [Option.some.injEq, Prod.mk.injEq] at h
      obtain ⟨h1, h2, h3⟩ := h
      have hlt := tryMarkerHere_length c rest ds1 after1 hmk
      rw [← h3]
      exact Nat.lt_succ_of_lt hlt
    | none =>
      rw [hmk] at h
      cases hfm : findMarker rest with
      | some v =>
        obtain ⟨pre1, ds1, after1⟩ := v
        rw [hfm] at h
        simp only [Option.some.injEq, Prod.mk.injEq] at h
        obtain ⟨h1, h2, h3⟩ := h
        rw [← h3]
        exact Nat.lt_succ_of_lt (ih pre1 ds1 after1 hfm)
      | none => rw [hfm] at h; exact absurd h (by simp)

/-- Python `re.split(r'\[(\d+)\]', text)`: alternating parts
`[before, digits, between, digits, ..., last]`. -/
def bracketParts (s : Str) : List Str :=
  match h : findMarker s with
  | none => [s]
  | some (pre, ds, after) => pre :: ds :: bracketParts after
termination_by s.length
decreasing_by exact findMarker_length s pre ds after h

/-- The paired loop of `_split_into_references`'s bracket strategy:
`for i in range(1, len(parts), 2): if i+1 < len(parts): ...`. -/
def collectPairsGo : List Str → List Str
  | d :: t :: more =>
    (if pyStrip t = [] then [] else [('[' :: d ++ ']' :: ' ' :: pyStrip t)]) ++ collectPairsGo more
  | _ => []

/-- Skips `parts[0]` and walks the (digits, text) pairs. -/
def collectPairs : List Str → List Str
  | [] => []
  | _ :: rest => collectPairsGo rest

/-- Python `_is_reference_start`: does any of the four anchored patterns match the line? -/
def is_reference_start (line : Str) : Bool :=
  startPatterns.any (fun p => (matchAt false false p line).isSome)

/-- Python `text.split('\n')` (keeps empty pieces). -/
def splitNl : Str → List Str
  | [] => [[]]
  | c :: rest =>
    if c = '\n' then [] :: splitNl rest
    else
      match splitNl rest with
      | [] => [[c]]
      | l :: ls => (c :: l) :: ls

/-- The line-based fallback strategy of `_split_into_references`: a blank line closes
the current candidate, a reference-start line opens a new one, anything else is
space-joined onto the current one. -/
def splitLinesAux : List Str → Str → List Str
  | [], cur => if cur = [] then [] else [cur]
  | l :: ls, cur =>
    let line := pyStrip l
    if line = [] then
      if cur = [] then splitLinesAux ls [] else cur :: splitLinesAux ls []
    else if is_reference_start line then
      if cur = [] then splitLinesAux ls line else cur :: splitLinesAux ls line
    else if cur = [] then splitLinesAux ls line
    else splitLinesAux ls (cur ++ ' ' :: line)

/-- Python `_split_into_references`: bracket-marker strategy when a `[<digits>]` marker is
present, otherwise the line-based strategy. -/
def split_into_references (text : Str) : List Str :=
  if (findMarker text).isSome then collectPairs (bracketParts text)
  else splitLinesAux (splitNl text) []

/-! ## Section location and numbered references -/

/-- First pattern in list order whose search succeeds (how the source iterates
its pattern lists). -/
def firstSearch (ci ml : Bool) (pats : List RE) (s : Str) : Option (Str × Str × Str × Caps) :=
  match pats with
  | [] => none
  | p :: rest =>
    match reSearch ci ml p s with
    | some r => some r
    | none => firstSearch ci ml rest s

/-- Python `_find_references_section`: text between the first matching section header and
the first matching end header (first in list order), stripped. -/
def find_references_section (text : Str) : Option Str :=
  match firstSearch true false sectionPatterns text with
  | none => none
  | some (_, _, rest, _) =>
    match firstSearch true false endPatterns rest with
    | some (before, _, _, _) => some (pyStrip before)
    | none => some (pyStrip rest)

/-- Python `_parse_references_section`: split, skip candidates whose strip is shorter than
20 characters, parse the rest with their positional number. -/
def parse_references_section (sectionText : Str) : List ExtractedReference :=
  ((split_into_references sectionText).enum.filterMap fun p =>
    if (pyStrip p.2).length < 20 then none
    else some (parse_single_reference p.2 (Int.ofNat (p.1 + 1))))

/-- Python `re.finditer` loop for the numbered-reference pattern: each iteration resumes
after the previous match (fuel is the remaining length, enough since every match
consumes at least one character). -/
def finditerNumbered : Nat → Str → List Caps
  | 0, _ => []
  | fuel + 1, s =>
    match reSearch false true numberedRefPattern s with
    | none => []
    | some (_, matched, rest, cp) =>
      if matched = [] then
        match rest with
        | [] => [cp]
        | _ :: r => cp :: finditerNumbered fuel r
      else cp :: finditerNumbered fuel rest

/-- Python `_find_numbered_references`: whole-document scan for `[n] text` entries longer
than 20 characters. -/
def find_numbered_references (text : Str) : List ExtractedReference :=
  (finditerNumbered (text.length + 1) text).filterMap fun cp =>
    let rt := pyStrip (capG cp 2)
    if 20 < rt.length then some (parse_single_reference rt (digitsToInt (capG cp 1)))
    else none

/-! ## Deduplication (`_deduplicate_references`, `_are_references_similar`) -/

/-- Python `_calculate_string_similarity`: 0 for an empty side, 1 for case-insensitive
equality, else Jaccard similarity over lower-cased word sets. -/
def calculate_string_similarity (s1 s2 : Str) : ℚ :=
  if s1 = [] ∨ s2 = [] then 0
  else
    let l1 := lowerStr s1
    let l2 := lowerStr s2
    if l1 = l2 then 1
    else
      let w1 := (pySplit l1).dedup
      let w2 := (pySplit l2).dedup
      let inter := w1.filter (fun w => w2.contains w)
      let union := w1 ++ w2.filter (fun w => ¬ w1.contains w)
      if union = [] then 0 else (inter.length : ℚ) / (union.length : ℚ)

/-- Python `_are_references_similar`: title Jaccard > 0.8 when both titles are non-empty;
in every other case (including failed title comparison) full-text Jaccard > 0.9. -/
def are_references_similar (r1 r2 : ExtractedReference) : Bool :=
  if r1.title ≠ [] ∧ r2.title ≠ [] ∧
      (4 : ℚ)/5 < calculate_string_similarity r1.title r2.title then true
  else decide ((9 : ℚ)/10 < calculate_string_similarity r1.full_text r2.full_text)

/-- Index of the first accepted entry similar to the incoming reference. -/
def firstSimilarIdx (acc : List ExtractedReference) (r : ExtractedReference) : Option Nat :=
  acc.findIdx? (fun e => are_references_similar r e)

/-- One step of `_deduplicate_references`: on the first similar accepted entry, the
strictly more confident record of the two survives (`remove` + `append` on a win,
no change otherwise); with no similar entry the incoming reference is appended. -/
def dedupStep (acc : List ExtractedReference) (r : ExtractedReference) :
    List ExtractedReference :=
  match firstSimilarIdx acc r with
  | some i =>
    if (acc.getD i default).confidence_score < r.confidence_score then
      acc.eraseIdx i ++ [r]
    else acc
  | none => acc ++ [r]

/-- Python `_deduplicate_references`: left fold of `dedupStep` over the candidate list. -/
def deduplicate_references (refs : List ExtractedReference) : List ExtractedReference :=
  refs.foldl dedupStep []

/-! ## Quality enhancement (`_enhance_reference_quality`,
`_clean_reference_text`, `_calculate_reference_completeness`) -/

/-- Python `_clean_reference_text`: collapse whitespace runs, strip ` .,;:` at both ends. -/
def clean_reference_text (t : Str) : Str :=
  if t = [] then [] else pyStripSet (collapseWs t) (str " .,;:")

/-- Python truthiness of the optional year (`if ref.year:`): present and nonzero. -/
def yearTruthy : Option Int → Bool
  | some y => y ≠ 0
  | none => false

/-- The `if ref.year and (ref.year < 1900 or ref.year > 2030)` test. -/
def yearInvalid : Option Int → Bool
  | some y => y ≠ 0 ∧ (y < 1900 ∨ 2030 < y)
  | none => false

/-- Python `_calculate_reference_completeness`: the weighted completeness score,
clamped to 1. -/
def calculate_reference_completeness (r : ExtractedReference) : ℚ :=
  let filled_optional : ℚ :=
    (([r.doi, r.url, r.volume, r.issue, r.pages].filter (fun f => f ≠ [])).length : ℚ)
  min 1 ((if r.authors ≠ [] then (3 : ℚ)/10 else 0) +
    (if r.title ≠ [] then (3 : ℚ)/10 else 0) +
    (if yearTruthy r.year then (1 : ℚ)/5 else 0) +
    (if r.venue ≠ [] then (1 : ℚ)/5 else 0) +
    filled_optional / 5 * ((1 : ℚ)/5))

/-- One reference's pass through `_enhance_reference_quality`: clean texts,
clear a truthy out-of-range year (with a note), then overwrite the confidence
with the completeness score. -/
def enhance_single (r : ExtractedReference) : ExtractedReference :=
  let r1 := { r with
    full_text := clean_reference_text r.full_text,
    title := clean_reference_text r.title,
    venue := clean_reference_text r.venue }
  let r2 :=
    if yearInvalid r1.year then
      { r1 with
        year := none,
        extraction_notes := r1.extraction_notes ++ str "Invalid year detected. " }
    else r1
  { r2 with confidence_score := calculate_reference_completeness r2 }

/-- Python `_enhance_reference_quality` over the whole list. -/
def enhance_reference_quality (refs : List ExtractedReference) : List ExtractedReference :=
  refs.map enhance_single

/-! ## The pipeline entry point (`extract_references_from_text`) -/

/-- Python `extract_references_from_text`: section candidates plus whole-document numbered
candidates, deduplicated and quality-enhanced. -/
def extract_references_from_text (text : Str) : List ExtractedReference :=
  let secRefs :=
    match find_references_section text with
    | some sec => parse_references_section sec
    | none => []
  enhance_reference_quality (deduplicate_references (secRefs ++ find_numbered_references text))

/-- The fatal-input gate of `extract_references_from_pdf` (lines 1152-1153):
`if not text_extraction_result["text"]: raise ValueError(...)`.  Only the empty
text is falsy; whitespace-only text passes. -/
def pdf_text_check (text : Str) : Except Str Str :=
  if text = [] then .error (str "No text could be extracted from the PDF") else .ok text

/-! ## The Text-Extraction Arbiter (`PDFTextExtractor`) -/

/-- One backend's extraction result, as consumed by `_select_best_extraction`. -/
structure TextExtractionResult where
  text : Str := []
  method : Str := []
  success : Bool := false
  quality_score : ℚ := 0
deriving DecidableEq, Repr

/-- The fixed vocabulary of academic indicators in `_calculate_text_quality`. -/
def academic_indicators : List Str :=
  [str "abstract", str "introduction", str "methodology", str "results",
   str "conclusion", str "references", str "bibliography", str "doi:",
   str "http://", str "https://", str "journal", str "conference",
   str "proceedings", str "volume", str "issue"]

/-- Python `_calculate_text_quality`: 0 for empty text, otherwise the clamped weighted sum
of length, word density and distinct academic indicators present. -/
def calculate_text_quality (text : Str) : ℚ :=
  if text = [] then 0
  else
    let char_count : ℚ := (text.length : ℚ)
    let word_count : ℚ := ((pySplit text).length : ℚ)
    let indicator_count : ℚ :=
      ((academic_indicators.filter
        (fun ind => decide (lowerStr ind <:+: lowerStr text))).length : ℚ)
    min 1 (char_count / 10000 * ((3 : ℚ)/10) + word_count / 2000 * ((3 : ℚ)/10) +
      indicator_count / ((academic_indicators.length : ℚ)) * ((2 : ℚ)/5))

/-- The OCR branch's score assignment (line 198): base quality times 0.8. -/
def ocr_quality_score (text : Str) : ℚ := calculate_text_quality text * ((4 : ℚ)/5)

/-- The comparison step of `_select_best_extraction`: a successful result with a
strictly higher quality score replaces the current best. -/
def selStep (best r : TextExtractionResult) : TextExtractionResult :=
  if r.success ∧ best.quality_score < r.quality_score then r else best

/-- The sentinel `_select_best_extraction` starts from:
`{"quality_score": 0.0, "text": "", "method": "none"}` (no `success` key). -/
def noneResult : TextExtractionResult :=
  { text := [], method := str "none", success := false, quality_score := 0 }

/-- Python `_select_best_extraction`: fold of `selStep` over the per-backend results in
insertion order, starting from the sentinel. -/
def select_best_extraction (results : List TextExtractionResult) : TextExtractionResult :=
  results.foldl selStep noneResult

/-! ## Specification-side definitions

These follow the specification's wording (not the source) and exist only to be
compared against the source-derived definitions above. -/

/-- The completeness formula as the specification words it: the year indicator is
`[year present]`, i.e. `year ≠ none`. -/
def spec_completeness (r : ExtractedReference) : ℚ :=
  min 1 ((if r.authors ≠ [] then (3 : ℚ)/10 else 0) +
    (if r.title ≠ [] then (3 : ℚ)/10 else 0) +
    (if r.year ≠ none then (1 : ℚ)/5 else 0) +
    (if r.venue ≠ [] then (1 : ℚ)/5 else 0) +
    (([r.doi, r.url, r.volume, r.issue, r.pages].filter (fun f => f ≠ [])).length : ℚ) / 5 *
      ((1 : ℚ)/5))

/-- Jaccard similarity over lower-cased word sets, as the specification words it. -/
def spec_jaccard (s1 s2 : Str) : ℚ :=
  let w1 := (pySplit (lowerStr s1)).dedup
  let w2 := (pySplit (lowerStr s2)).dedup
  let inter := w1.filter (fun w => w2.contains w)
  let union := w1 ++ w2.filter (fun w => ¬ w1.contains w)
  if union = [] then 0 else (inter.length : ℚ) / (union.length : ℚ)

/-- The collision criterion as the specification words it: when both titles are
non-empty only the title comparison applies; the full-text comparison applies
only otherwise. -/
def spec_similar (r1 r2 : ExtractedReference) : Bool :=
  if r1.title ≠ [] ∧ r2.title ≠ [] then
    decide ((4 : ℚ)/5 < spec_jaccard r1.title r2.title)
  else decide ((9 : ℚ)/10 < spec_jaccard r1.full_text r2.full_text)

/-- The Arbiter's selection rule as the specification words it: the earliest
successful result whose quality score no successful result strictly exceeds. -/
def spec_select_best (rs : List TextExtractionResult) : Option TextExtractionResult :=
  rs.find? (fun r => r.success &&
    rs.all (fun e => !e.success || decide (e.quality_score ≤ r.quality_score)))

/-- The Arbiter's quality formula as the specification words it (no special case
for empty text). -/
def spec_text_quality (text : Str) : ℚ :=
  min 1 (((text.length : ℚ)) / 10000 * ((3 : ℚ)/10) +
    (((pySplit text).length : ℚ)) / 2000 * ((3 : ℚ)/10) +
    (((academic_indicators.filter
        (fun ind => decide (lowerStr ind <:+: lowerStr text))).length : ℚ)) /
      ((academic_indicators.length : ℚ)) * ((2 : ℚ)/5))

/-! ## Concrete inputs used by counterexamples and witnesses -/

/-- A candidate that matches no style grammar but contains a DOI. -/
def doiText : Str := str "see doi: 10.1234/abc for more details here"

/-- A candidate matching only the MLA book pattern. -/
def mlaText : Str := str "Smith, John. Great Book Title Here. Publisher, 1999."

/-- Specification example 2's input. -/
def johnsonText : Str := str "Johnson, M., & Brown, K. (2022). Data Science Fundamentals. Academic Press."

/-- A numbered reference whose APA match parses the year `0000`. -/
def brownText : Str := str "[1] Brown, K. (0000). Data Science Fundamentals. Academic Press."

/-- A numbered candidate matching no style grammar (minimal 0.3 record). -/
def lowerText : Str := str "[1] lowercase reference text with no patterns at all here"

/-- Eighteen shared words used to build the dedup counterexample texts. -/
def baseWords : String := "t01 t02 t03 t04 t05 t06 t07 t08 t09 t10 t11 t12 t13 t14 t15 t16 t17 t18"

/-- Dedup counterexample: shares 18 of its 20 words with `refC` (Jaccard 19/21). -/
def refA : ExtractedReference :=
  { full_text := str (baseWords ++ " x1 x2"), confidence_score := 1/2 }

/-- Dedup counterexample: shares 18 of its 20 words with `refC`, 18 of 22 with `refA`. -/
def refB : ExtractedReference :=
  { full_text := str (baseWords ++ " y1 y2"), confidence_score := 1/2 }

/-- Dedup counterexample: similar to both `refA` and `refB`, higher confidence. -/
def refC : ExtractedReference :=
  { full_text := str (baseWords ++ " x1 y1"), confidence_score := 4/5 }

/-- Similarity counterexample: dissimilar title, identical full text, low confidence. -/
def refS1 : ExtractedReference :=
  { title := str "alpha", full_text := str "the same exact full text content",
    confidence_score := 3/10 }

/-- Similarity counterexample: dissimilar title, identical full text, high confidence. -/
def refS2 : ExtractedReference :=
  { title := str "beta", full_text := str "the same exact full text content",
    confidence_score := 1/2 }

/-- Two successful zero-quality extraction results (empty extracted text). -/
def zeroResults : List TextExtractionResult :=
  [{ text := [], method := str "pdfplumber", success := true,
     quality_score := calculate_text_quality [] },
   { text := [], method := str "pypdf2", success := true,
     quality_score := calculate_text_quality [] }]

/-- A successful extraction result with positive quality. -/
def posResult : TextExtractionResult :=
  { text := str "abstract", method := str "pdfplumber", success := true,
    quality_score := calculate_text_quality (str "abstract") }

/-! ## Claim C1 — metadata enrichment and the style-match outcome -/

unseal Rat.mul Rat.inv Rat.add Rat.sub in
/-- C1 counterexample: on a candidate whose style match fails, the minimal
0.3-confidence record has `doi` and `reference_type` left empty even though the
dedicated DOI pattern does match its text (and the keyword rule would say
`unknown`) — the Metadata Enricher is applied only after a successful style
match, not to every candidate. -/
theorem c1_counterexample :
    (parse_single_reference doiText 1).doi = [] ∧
    (parse_single_reference doiText 1).reference_type = [] ∧
    (parse_single_reference doiText 1).confidence_score = 3/10 ∧
    (extract_additional_metadata {} doiText).doi = str "10.1234/abc" ∧
    (extract_additional_metadata {} doiText).reference_type = str "unknown" := by
  decide

/-- C1 (amended): the Metadata Enricher runs only on candidates whose style match
succeeded; such candidates get `doi`, `url`, `isbn`, `volume`, `issue`, `pages`
from the dedicated patterns and `reference_type` from the keyword-priority rule,
while a candidate whose style match failed keeps the minimal record with all of
these fields empty. -/
theorem c1_enrichment (text : Str) (n : Int) :
    (styleFirstMatch citation_patterns (pyStrip text) = none →
      parse_single_reference text n =
        { reference_number := some n, full_text := pyStrip text, confidence_score := 3/10,
          extraction_notes := str "Pattern matching failed, basic extraction only" }) ∧
    ((styleFirstMatch citation_patterns (pyStrip text)).isSome = true →
      (parse_single_reference text n).doi =
        (searchG1 true doiPattern (pyStrip text)).getD [] ∧
      (parse_single_reference text n).url =
        (searchG1 false urlPattern (pyStrip text)).getD [] ∧
      (parse_single_reference text n).isbn =
        (searchG1 true isbnPattern (pyStrip text)).getD [] ∧
      (parse_single_reference text n).volume =
        (searchG1 true volumePattern (pyStrip text)).getD [] ∧
      (parse_single_reference text n).issue =
        (searchG1 true issuePattern (pyStrip text)).getD [] ∧
      (parse_single_reference text n).pages =
        (searchG1 true pagesPattern (pyStrip text)).getD [] ∧
      (parse_single_reference text n).reference_type =
        determine_reference_type (pyStrip text)) := by
  constructor
  · intro h
    simp only [parse_single_reference, h]
  · intro h
    obtain ⟨⟨style, p, cp⟩, hm⟩ := Option.isSome_iff_exists.mp h
    simp only [parse_single_reference, hm, create_reference_from_match,
      extract_additional_metadata]
    split
    · simp
    · split
      · split <;> simp
      · simp

/-- C1 witness: the two branches of `c1_enrichment` at concrete candidates. -/
theorem c1_witness :
    (parse_single_reference doiText 2 =
      { reference_number := some 2, full_text := pyStrip doiText, confidence_score := 3/10,
        extraction_notes := str "Pattern matching failed, basic extraction only" }) ∧
    (parse_single_reference mlaText 3).reference_type =
      determine_reference_type (pyStrip mlaText) :=
  ⟨(c1_enrichment doiText 2).1 (by decide),
   ((c1_enrichment mlaText 3).2 (by decide)).2.2.2.2.2.2⟩

/-! ## Claims C2/C3 — score bounds and the completeness formula -/

/-- The completeness score is nonnegative. -/
theorem completeness_nonneg (r : ExtractedReference) :
    0 ≤ calculate_reference_completeness r := by
  unfold calculate_reference_completeness
  refine le_min (by norm_num) ?_
  have h1 : (0 : ℚ) ≤ if r.authors ≠ [] then (3 : ℚ)/10 else 0 := by split <;> norm_num
  have h2 : (0 : ℚ) ≤ if r.title ≠ [] then (3 : ℚ)/10 else 0 := by split <;> norm_num
  have h3 : (0 : ℚ) ≤ if yearTruthy r.year then (1 : ℚ)/5 else 0 := by split <;> norm_num
  have h4 : (0 : ℚ) ≤ if r.venue ≠ [] then (1 : ℚ)/5 else 0 := by split <;> norm_num
  have h5 : (0 : ℚ) ≤
      (([r.doi, r.url, r.volume, r.issue, r.pages].filter (fun f => f ≠ [])).length : ℚ) / 5 *
        ((1 : ℚ)/5) := by positivity
  linarith

/-- The completeness score is at most one. -/
theorem completeness_le_one (r : ExtractedReference) :
    calculate_reference_completeness r ≤ 1 := by
  unfold calculate_reference_completeness
  exact min_le_left _ _

/-- The enhanced reference's confidence is exactly the completeness of its final fields
(the scoring reads every field except the confidence itself, and the cleaning
happened before the scoring). -/
theorem enhance_single_confidence (r : ExtractedReference) :
    (enhance_single r).confidence_score = calculate_reference_completeness (enhance_single r) := by
  simp only [enhance_single, calculate_reference_completeness]

/-- The enhanced reference's year is `none`, `0`, or lies in [1900, 2030]. -/
theorem enhance_single_year (r : ExtractedReference) :
    (enhance_single r).year = none ∨ (enhance_single r).year = some 0 ∨
      ∃ y, (enhance_single r).year = some y ∧ 1900 ≤ y ∧ y ≤ 2030 := by
  simp only [enhance_single]
  split
  · left
    rfl
  · rename_i hv
    cases hy : r.year with
    | none => left; simpa using hy
    | some y =>
      simp only [yearInvalid, hy] at hv
      by_cases h0 : y = 0
      · right; left; simpa [h0] using hy
      · right; right
        refine ⟨y, by simpa using hy, ?_, ?_⟩
        · by_contra hlt
          exact hv (by simp [h0]; omega)
        · by_contra hlt
          exact hv (by simp [h0]; omega)

/-- C2 counterexample: on this input the pipeline emits a record whose year is `0`
(parsed from `(0000)`), which is neither absent nor inside [1900, 2030] — the
Python truthiness test `if ref.year and ...` never clears a zero year. -/
theorem c2_counterexample :
    ¬ (∀ r ∈ extract_references_from_text brownText,
        r.year = none ∨ (1900 ≤ r.year.getD 0 ∧ r.year.getD 0 ≤ 2030)) := by
  decide

/-- C2 (amended): every reference returned by `extract_references_from_text` has
`confidence_score` in [0, 1], and its year is `none`, `0`, or an integer in
[1900, 2030]; a *nonzero* parsed year outside [1900, 2030] is cleared to `none`. -/
theorem c2_bounds (text : Str) (r : ExtractedReference)
    (h : r ∈ extract_references_from_text text) :
    0 ≤ r.confidence_score ∧ r.confidence_score ≤ 1 ∧
      (r.year = none ∨ r.year = some 0 ∨ ∃ y, r.year = some y ∧ 1900 ≤ y ∧ y ≤ 2030) := by
  unfold extract_references_from_text enhance_reference_quality at h
  obtain ⟨r0, _hr0, rfl⟩ := List.mem_map.mp h
  refine ⟨?_, ?_, enhance_single_year r0⟩
  · rw [enhance_single_confidence]
    exact completeness_nonneg _
  · rw [enhance_single_confidence]
    exact completeness_le_one _

unseal Rat.mul Rat.inv Rat.add Rat.sub in
/-- C2 witness: `c2_bounds` at the concrete pipeline output for `lowerText`. -/
theorem c2_witness :
    0 ≤ ((extract_references_from_text lowerText).getD 0 default).confidence_score ∧
      ((extract_references_from_text lowerText).getD 0 default).confidence_score ≤ 1 ∧
      (((extract_references_from_text lowerText).getD 0 default).year = none ∨
        ((extract_references_from_text lowerText).getD 0 default).year = some 0 ∨
        ∃ y, ((extract_references_from_text lowerText).getD 0 default).year = some y ∧
          1900 ≤ y ∧ y ≤ 2030) :=
  c2_bounds lowerText _ (by decide)

set_option maxRecDepth 8000 in
unseal Rat.mul Rat.inv Rat.add Rat.sub in
/-- C3 counterexample: on this input the surviving reference (with year `0`) ends
with confidence 0.8, while the claimed formula — whose year indicator is
`[year present]`, i.e. year ≠ none — gives 1: the code's indicator is Python
truthiness (`if ref.year:`), which treats the present year `0` as absent. -/
theorem c3_counterexample :
    (extract_references_from_text brownText).map
      (fun r => (r.confidence_score, spec_completeness r)) = [(4/5, 1)] ∧
      ((4 : ℚ)/5 ≠ 1) := by
  decide

/-- C3 (amended): every reference surviving the pipeline has final confidence
min(1, 0.3·[authors ≠ ∅] + 0.3·[title ≠ ""] + 0.2·[year truthy, i.e. present and
nonzero] + 0.2·[venue ≠ ""] + 0.2·(filled_optional/5)), evaluated on the final
(cleaned) fields; this overwrites whatever confidence the style match assigned. -/
theorem c3_confidence (text : Str) (r : ExtractedReference)
    (h : r ∈ extract_references_from_text text) :
    r.confidence_score =
      min 1 ((if r.authors ≠ [] then (3 : ℚ)/10 else 0) +
        (if r.title ≠ [] then (3 : ℚ)/10 else 0) +
        (if yearTruthy r.year then (1 : ℚ)/5 else 0) +
        (if r.venue ≠ [] then (1 : ℚ)/5 else 0) +
        (([r.doi, r.url, r.volume, r.issue, r.pages].filter (fun f => f ≠ [])).length : ℚ) / 5 *
          ((1 : ℚ)/5)) := by
  unfold extract_references_from_text enhance_reference_quality at h
  obtain ⟨r0, _hr0, rfl⟩ := List.mem_map.mp h
  rw [enhance_single_confidence]
  rfl

unseal Rat.mul Rat.inv Rat.add Rat.sub in
/-- C3 witness: `c3_confidence` at the concrete pipeline output for `lowerText`. -/
theorem c3_witness :
    ((extract_references_from_text lowerText).getD 0 default).confidence_score =
      min 1 ((if ((extract_references_from_text lowerText).getD 0 default).authors ≠ []
          then (3 : ℚ)/10 else 0) +
        (if ((extract_references_from_text lowerText).getD 0 default).title ≠ []
          then (3 : ℚ)/10 else 0) +
        (if yearTruthy ((extract_references_from_text lowerText).getD 0 default).year
          then (1 : ℚ)/5 else 0) +
        (if ((extract_references_from_text lowerText).getD 0 default).venue ≠ []
          then (1 : ℚ)/5 else 0) +
        (([((extract_references_from_text lowerText).getD 0 default).doi,
           ((extract_references_from_text lowerText).getD 0 default).url,
           ((extract_references_from_text lowerText).getD 0 default).volume,
           ((extract_references_from_text lowerText).getD 0 default).issue,
           ((extract_references_from_text lowerText).getD 0 default).pages].filter
             (fun f => f ≠ [])).length : ℚ) / 5 * ((1 : ℚ)/5)) :=
  c3_confidence lowerText _ (by decide)

/-! ## Claim C4 — the Style Matcher's population of fields -/

/-- The matched style tag of a style-match result (empty when no match). -/
def smStyle (o : Option (Str × StylePattern × Caps)) : Str :=
  (o.map (fun t => t.1)).getD []

/-- Capture group `i` of a style-match result. -/
def smCap (o : Option (Str × StylePattern × Caps)) (i : Nat) : Str :=
  (o.map (fun t => capG t.2.2 i)).getD []

/-- The group count of the matched pattern of a style-match result. -/
def smNg (o : Option (Str × StylePattern × Caps)) : Nat :=
  (o.map (fun t => t.2.1.ngroups)).getD 0

unseal Rat.mul Rat.inv Rat.add Rat.sub in
/-- C4 counterexample: this candidate matches the MLA book pattern (its capture
groups include the non-empty title "Great Book Title Here"), and the result
carries `citation_style = "mla"` and confidence 0.8 — but `authors`, `title`,
`year` and `venue` are all left empty: only the `apa` and `ieee` branches of
`_create_reference_from_match` populate fields from capture groups. -/
theorem c4_counterexample :
    (parse_single_reference mlaText 1).citation_style = str "mla" ∧
    (parse_single_reference mlaText 1).confidence_score = 4/5 ∧
    (parse_single_reference mlaText 1).authors = [] ∧
    (parse_single_reference mlaText 1).title = [] ∧
    (parse_single_reference mlaText 1).year = none ∧
    (parse_single_reference mlaText 1).venue = [] ∧
    smCap (styleFirstMatch citation_patterns (pyStrip mlaText)) 2 =
      str "Great Book Title Here" := by
  decide

/-- C4 (amended): patterns are tried in the fixed order `apa`, `mla`, `chicago`,
`ieee` and the first match wins (in particular any APA-pattern match forces style
`apa`); a match always sets `citation_style` to the matching style and confidence
to 0.8, but `authors`, `year`, `title`, `venue` are populated from capture groups
only in the `apa` (and `ieee`) branches — an `mla` or `chicago` match leaves all
four empty; no match yields the minimal 0.3 record with only `full_text` and a
failure note. -/
theorem c4_style_matcher (text : Str) (n : Int) :
    ((styleFirstMatch citation_patterns (pyStrip text)).isSome = true →
      (parse_single_reference text n).citation_style =
        smStyle (styleFirstMatch citation_patterns (pyStrip text)) ∧
      (parse_single_reference text n).confidence_score = 4/5 ∧
      ((smStyle (styleFirstMatch citation_patterns (pyStrip text)) = str "mla" ∨
        smStyle (styleFirstMatch citation_patterns (pyStrip text)) = str "chicago") →
        (parse_single_reference text n).authors = [] ∧
        (parse_single_reference text n).title = [] ∧
        (parse_single_reference text n).year = none ∧
        (parse_single_reference text n).venue = []) ∧
      (smStyle (styleFirstMatch citation_patterns (pyStrip text)) = str "apa" →
        3 ≤ smNg (styleFirstMatch citation_patterns (pyStrip text)) →
        (parse_single_reference text n).authors =
          [pyStrip (smCap (styleFirstMatch citation_patterns (pyStrip text)) 1)] ∧
        (parse_single_reference text n).title =
          pyStrip (smCap (styleFirstMatch citation_patterns (pyStrip text)) 3) ∧
        (parse_single_reference text n).year =
          (if pyIsDigit (smCap (styleFirstMatch citation_patterns (pyStrip text)) 2)
            then some (digitsToInt (smCap (styleFirstMatch citation_patterns (pyStrip text)) 2))
            else none))) ∧
    ((firstPatternMatch [⟨apa1, 7⟩, ⟨apa2, 4⟩] (pyStrip text)).isSome = true →
      smStyle (styleFirstMatch citation_patterns (pyStrip text)) = str "apa") ∧
    (styleFirstMatch citation_patterns (pyStrip text) = none →
      parse_single_reference text n =
        { reference_number := some n, full_text := pyStrip text, confidence_score := 3/10,
          extraction_notes := str "Pattern matching failed, basic extraction only" }) := by
  refine ⟨?_, ?_, ?_⟩
  · intro h
    obtain ⟨⟨style, p, cp⟩, hm⟩ := Option.isSome_iff_exists.mp h
    simp only [parse_single_reference, hm, smStyle, smNg, smCap, Option.map_some',
      Option.getD_some, create_reference_from_match, extract_additional_metadata]
    split
    · rename_i hcond
      obtain ⟨hstyle, _⟩ := hcond
      refine ⟨by simp, by simp, ?_, ?_⟩
      · rintro (hmla | hchi)
        · rw [hstyle] at hmla
          exact absurd hmla (by decide)
        · rw [hstyle] at hchi
          exact absurd hchi (by decide)
      · intro _ _
        simp
    · rename_i hncond
      split
      · rename_i hcond2
        obtain ⟨hstyle, _⟩ := hcond2
        have hmlaF : ¬ (style = str "mla" ∨ style = str "chicago") := by
          rw [hstyle]
          rintro (hx | hx) <;> exact absurd hx (by decide)
        have hapaF : ¬ style = str "apa" := by
          rw [hstyle]
          exact (by decide)
        split
        · exact ⟨by simp, by simp, fun hx => absurd hx hmlaF, fun hx => absurd hx hapaF⟩
        · exact ⟨by simp, by simp, fun hx => absurd hx hmlaF, fun hx => absurd hx hapaF⟩
      · rename_i hncond2
        refine ⟨by simp, by simp, ?_, ?_⟩
        · intro _
          simp
        · intro hapa hng
          exact absurd ⟨hapa, hng⟩ hncond
  · intro h
    obtain ⟨⟨p, cp⟩, hm⟩ := Option.isSome_iff_exists.mp h
    simp only [citation_patterns, styleFirstMatch, hm, smStyle, Option.map_some',
      Option.getD_some]
  · intro h
    simp only [parse_single_reference, h]

/-- C4 witness: the match branch of `c4_style_matcher` at the MLA candidate. -/
theorem c4_witness :
    (parse_single_reference mlaText 1).citation_style =
      smStyle (styleFirstMatch citation_patterns (pyStrip mlaText)) ∧
    (parse_single_reference mlaText 1).title = [] := by
  have h := (c4_style_matcher mlaText 1).1 (by decide)
  exact ⟨h.1, (h.2.2.1 (by decide)).2.1⟩

/-! ## Claim C5 — the deduplication collision criterion -/

unseal Rat.mul Rat.inv Rat.add Rat.sub in
/-- C5 counterexample: two records with non-empty, entirely dissimilar titles
("alpha" vs "beta", title Jaccard 0) but identical full texts collide in the
code (full-text similarity 1 > 0.9), while under the claimed criterion the
full-text comparison applies only when the titles are not both non-empty —
the code falls through to the full-text comparison even when the title
comparison was available and failed. -/
theorem c5_counterexample :
    are_references_similar refS1 refS2 = true ∧ spec_similar refS1 refS2 = false := by
  decide

/-- C5 (amended): two references collide exactly when (a) both titles are non-empty
and their similarity exceeds 0.8, or (b) — regardless of the titles — the
full-text similarity exceeds 0.9; on a collision the strictly more confident
record survives (`remove` of the accepted entry plus append of the incoming one),
and on a tie (or a loss) the accepted list is unchanged; with no collision the
incoming reference is appended. -/
theorem c5_similarity (r e : ExtractedReference) (acc : List ExtractedReference) (i : Nat) :
    (are_references_similar r e = true ↔
      ((r.title ≠ [] ∧ e.title ≠ [] ∧
          (4 : ℚ)/5 < calculate_string_similarity r.title e.title) ∨
        (9 : ℚ)/10 < calculate_string_similarity r.full_text e.full_text)) ∧
    (firstSimilarIdx acc r = some i →
      ((acc.getD i default).confidence_score < r.confidence_score →
        dedupStep acc r = acc.eraseIdx i ++ [r]) ∧
      (r.confidence_score ≤ (acc.getD i default).confidence_score →
        dedupStep acc r = acc)) ∧
    (firstSimilarIdx acc r = none → dedupStep acc r = acc ++ [r]) := by
  refine ⟨?_, ?_, ?_⟩
  · unfold are_references_similar
    split
    · rename_i hc
      simp only [true_iff]
      exact Or.inl hc
    · rename_i hc
      simp only [decide_eq_true_eq]
      constructor
      · intro hx
        exact Or.inr hx
      · rintro (hx | hx)
        · exact absurd hx hc
        · exact hx
  · intro h
    unfold dedupStep
    rw [h]
    constructor
    · intro hlt
      simp only [if_pos hlt]
    · intro hle
      simp only [if_neg (not_lt.mpr hle)]
  · intro h
    unfold dedupStep
    rw [h]

unseal Rat.mul Rat.inv Rat.add Rat.sub in
/-- C5 witness: `c5_similarity`'s collision rule at a concrete pair — the higher
confidence incoming record replaces the accepted one. -/
theorem c5_witness :
    dedupStep [refS1] refS2 = [refS1].eraseIdx 0 ++ [refS2] :=
  (((c5_similarity refS2 refS1 [refS1] 0).2.1 (by decide)).1 (by decide))

/-! ## Claim C6 — idempotence of deduplication -/

unseal Rat.mul Rat.inv Rat.add Rat.sub in
/-- C6 counterexample: with `refA`, `refB`, `refC` (pairwise full-text Jaccard 19/21,
19/21 and 9/11), one pass keeps `[refB, refC]` — `refC` replaces `refA`, the loop
breaks, and `refC` is never compared against `refB` — while a second pass merges
`refB` and `refC` to `[refC]`; deduplication is not idempotent. -/
theorem c6_counterexample :
    deduplicate_references (deduplicate_references [refA, refB, refC]) ≠
      deduplicate_references [refA, refB, refC] := by
  decide

/-- Folding `dedupStep` over pairwise-dissimilar references only appends. -/
theorem dedup_fold_pairwise (l acc : List ExtractedReference)
    (hl : l.Pairwise (fun a b => are_references_similar b a = false))
    (hacc : ∀ r ∈ l, ∀ e ∈ acc, are_references_similar r e = false) :
    l.foldl dedupStep acc = acc ++ l := by
  induction l generalizing acc with
  | nil => simp
  | cons r l1 ih =>
    have hstep : dedupStep acc r = acc ++ [r] := by
      unfold dedupStep firstSimilarIdx
      have hnone : acc.findIdx? (fun e => are_references_similar r e) = none := by
        rw [List.findIdx?_eq_none_iff]
        intro e he
        simpa using hacc r (by simp) e he
      rw [hnone]
    rw [List.foldl_cons, hstep]
    rw [ih (acc ++ [r]) (List.Pairwise.of_cons hl) ?_]
    · simp
    · intro r1 hr1 e he
      rcases List.mem_append.mp he with hea | her
      · exact hacc r1 (by simp [hr1]) e hea
      · have heq : e = r := by simpa using her
        subst heq
        exact (List.pairwise_cons.mp hl).1 r1 hr1

/-- C6 (amended): deduplication is not idempotent in general (see the
counterexample), but any list in which no two entries are similar is a fixed
point of the Deduplicator. -/
theorem c6_fixed_point (l : List ExtractedReference)
    (hl : l.Pairwise (fun a b => are_references_similar b a = false)) :
    deduplicate_references l = l := by
  unfold deduplicate_references
  simpa using dedup_fold_pairwise l [] hl (by simp)

unseal Rat.mul Rat.inv Rat.add Rat.sub in
/-- C6 witness: `c6_fixed_point` on a concrete pairwise-dissimilar list. -/
theorem c6_witness : deduplicate_references [refA, refB] = [refA, refB] :=
  c6_fixed_point [refA, refB] (by decide)

/-! ## Claim C7 — the Arbiter's quality score and selection -/

/-- The selection fold either keeps its start value (nothing successful beats it) or
returns a successful element that dominates every successful one, is strictly
better than the start value, and strictly beats every earlier successful element. -/
theorem selGo (rs : List TextExtractionResult) (b : TextExtractionResult) :
    (rs.foldl selStep b = b ∧
      ∀ r ∈ rs, r.success = true → r.quality_score ≤ b.quality_score) ∨
    (∃ l1 l2, rs = l1 ++ rs.foldl selStep b :: l2 ∧
      (rs.foldl selStep b).success = true ∧
      b.quality_score < (rs.foldl selStep b).quality_score ∧
      (∀ r ∈ rs, r.success = true → r.quality_score ≤ (rs.foldl selStep b).quality_score) ∧
      (∀ r ∈ l1, r.success = true → r.quality_score < (rs.foldl selStep b).quality_score)) := by
  induction rs generalizing b with
  | nil =>
    left
    exact ⟨rfl, by simp⟩
  | cons r rs1 ih =>
    rw [List.foldl_cons]
    by_cases hbeat : r.success = true ∧ b.quality_score < r.quality_score
    · have hstep : selStep b r = r := by unfold selStep; rw [if_pos hbeat]
      rw [hstep]
      rcases ih r with ⟨heq, hall⟩ | ⟨l1, l2, hsplit, hsucc, hgt, hall, hl1⟩
      · right
        rw [heq]
        refine ⟨[], rs1, by simp, hbeat.1, hbeat.2, ?_, by simp⟩
        intro x hx hxs
        rcases List.mem_cons.mp hx with rfl | hx1
        · exact le_refl _
        · exact hall x hx1 hxs
      · right
        refine ⟨r :: l1, l2, by rw [List.cons_append, ← hsplit], hsucc,
          lt_trans hbeat.2 hgt, ?_, ?_⟩
        · intro x hx hxs
          rcases List.mem_cons.mp hx with rfl | hx1
          · exact le_of_lt hgt
          · exact hall x hx1 hxs
        · intro x hx hxs
          rcases List.mem_cons.mp hx with rfl | hx1
          · exact hgt
          · exact hl1 x hx1 hxs
    · have hstep : selStep b r = b := by unfold selStep; rw [if_neg hbeat]
      rw [hstep]
      have hrle : r.success = true → r.quality_score ≤ b.quality_score := by
        intro hs
        by_contra hlt
        exact hbeat ⟨hs, lt_of_not_ge hlt⟩
      rcases ih b with ⟨heq, hall⟩ | ⟨l1, l2, hsplit, hsucc, hgt, hall, hl1⟩
      · left
        refine ⟨heq, ?_⟩
        intro x hx hxs
        rcases List.mem_cons.mp hx with rfl | hx1
        · exact hrle hxs
        · exact hall x hx1 hxs
      · right
        refine ⟨r :: l1, l2, by rw [List.cons_append, ← hsplit], hsucc, hgt, ?_, ?_⟩
        · intro x hx hxs
          rcases List.mem_cons.mp hx with rfl | hx1
          · exact le_trans (hrle hxs) (le_of_lt hgt)
          · exact hall x hx1 hxs
        · intro x hx hxs
          rcases List.mem_cons.mp hx with rfl | hx1
          · exact lt_of_le_of_lt (hrle hxs) hgt
          · exact hl1 x hx1 hxs

unseal Rat.mul Rat.inv Rat.add Rat.sub in
/-- C7 counterexample: two successful backend results whose extracted text is empty
both score 0; the claimed rule (successful result with the strictly highest score,
ties keeping the earlier backend) picks the pdfplumber result, but the code's fold
never leaves its sentinel — it returns the non-result `method = "none"`, which is
not a successful per-backend result at all. -/
theorem c7_counterexample :
    spec_select_best zeroResults =
      some { text := [], method := str "pdfplumber", success := true, quality_score := 0 } ∧
    select_best_extraction zeroResults ≠
      { text := [], method := str "pdfplumber", success := true, quality_score := 0 } ∧
    (select_best_extraction zeroResults).method = str "none" := by
  decide

unseal Rat.mul Rat.inv Rat.add Rat.sub in
/-- C7 (amended): the quality score equals the claimed clamped formula for every
text (the code's empty-text special case agrees with the formula); an OCR result's
score is 0.8 times the base quality; and whenever some successful result has
positive quality, the Arbiter returns exactly the earliest successful result of
maximal quality (the specification's selection rule) — the sentinel is returned
only when no successful result has positive quality. -/
theorem c7_arbiter :
    (∀ t : Str, calculate_text_quality t = spec_text_quality t) ∧
    (∀ t : Str, ocr_quality_score t = calculate_text_quality t * ((4 : ℚ)/5)) ∧
    (∀ rs : List TextExtractionResult,
      (∃ r ∈ rs, r.success = true ∧ 0 < r.quality_score) →
      spec_select_best rs = some (select_best_extraction rs)) := by
  refine ⟨?_, fun t => rfl, ?_⟩
  · intro t
    by_cases ht : t = []
    · subst ht
      decide
    · simp only [calculate_text_quality, spec_text_quality, ht, if_false]
  · intro rs hex
    obtain ⟨r0, hr0mem, hr0s, hr0q⟩ := hex
    unfold spec_select_best select_best_extraction
    rcases selGo rs noneResult with ⟨heq, hall⟩ | ⟨l1, l2, hsplit, hsucc, hgt, hall, hl1⟩
    · exfalso
      have h0 : r0.quality_score ≤ 0 := hall r0 hr0mem hr0s
      exact absurd hr0q (not_lt.mpr h0)
    · generalize hgen : rs.foldl selStep noneResult = res at hsplit hsucc hgt hall hl1 ⊢
      rw [hsplit]
      rw [List.find?_append]
      have hl1none : l1.find? (fun r => r.success && (l1 ++ res :: l2).all
          (fun e => !e.success || decide (e.quality_score ≤ r.quality_score))) = none := by
        rw [List.find?_eq_none]
        intro x hx
        by_cases hxs : x.success = true
        · have hxlt := hl1 x hx hxs
          simp only [Bool.and_eq_true, not_and, List.all_eq_true]
          intro _ hall2
          have hres := hall2 res (by simp)
          simp only [hsucc, Bool.not_true, Bool.false_or, decide_eq_true_eq] at hres
          exact absurd hres (not_le.mpr hxlt)
        · simp only [Bool.and_eq_true, not_and]
          intro hxs2
          exact absurd hxs2 hxs
      rw [hl1none]
      have hpres : ((fun r => r.success && (l1 ++ res :: l2).all
          (fun e => !e.success || decide (e.quality_score ≤ r.quality_score))) res) = true := by
        simp only [hsucc, Bool.true_and, List.all_eq_true]
        intro e he
        by_cases hes : e.success = true
        · have hle : e.quality_score ≤ res.quality_score := by
            refine hall e ?_ hes
            rw [hsplit]
            exact he
          simp [hle]
        · simp [hes]
      rw [Option.none_or]
      exact List.find?_cons_of_pos _ hpres

unseal Rat.mul Rat.inv Rat.add Rat.sub in
/-- C7 witness: `c7_arbiter`'s selection clause at a singleton list with a
successful positive-quality result. -/
theorem c7_witness :
    spec_select_best [posResult] = some (select_best_extraction [posResult]) :=
  c7_arbiter.2.2 [posResult] ⟨posResult, by decide, by decide, by decide⟩

/-! ## Claim C8 — bracket-numbered segmentation completeness -/

/-- A text without `[` has no marker. -/
theorem findMarker_none (s : Str) (h : ∀ c ∈ s, c ≠ '[') : findMarker s = none := by
  induction s with
  | nil => rfl
  | cons c rest ih =>
    simp only [findMarker]
    have htm : tryMarkerHere c rest = none := by
      unfold tryMarkerHere
      rw [if_neg (h c (by simp))]
    rw [htm, ih (fun x hx => h x (by simp [hx]))]

/-- The digit run of `ds ++ ']' :: after` is exactly `ds`. -/
theorem takeWhile_digits (ds after : Str) (hdig : ∀ c ∈ ds, c.isDigit = true) :
    (ds ++ ']' :: after).takeWhile Char.isDigit = ds := by
  induction ds with
  | nil => rfl
  | cons c ds1 ih =>
    have hc : c.isDigit = true := hdig c (by simp)
    simp only [List.cons_append, List.takeWhile_cons, hc, if_true]
    rw [ih (fun x hx => hdig x (by simp [hx]))]

/-- Dropping the digit run of `ds ++ ']' :: after` leaves `']' :: after`. -/
theorem dropWhile_digits (ds after : Str) (hdig : ∀ c ∈ ds, c.isDigit = true) :
    (ds ++ ']' :: after).dropWhile Char.isDigit = ']' :: after := by
  induction ds with
  | nil => rfl
  | cons c ds1 ih =>
    have hc : c.isDigit = true := hdig c (by simp)
    simp only [List.cons_append, List.dropWhile_cons, hc, if_true]
    exact ih (fun x hx => hdig x (by simp [hx]))

/-- A well-formed marker is recognised in place. -/
theorem tryMarkerHere_at (ds after : Str) (hds : ds ≠ [])
    (hdig : ∀ c ∈ ds, c.isDigit = true) :
    tryMarkerHere '[' (ds ++ ']' :: after) = some (ds, after) := by
  unfold tryMarkerHere
  rw [if_pos rfl, dropWhile_digits ds after hdig, takeWhile_digits ds after hdig]
  simp [hds]

/-- The `findMarker` step when the head starts a marker. -/
theorem findMarker_cons_some (c : Char) (rest ds after : Str)
    (h : tryMarkerHere c rest = some (ds, after)) :
    findMarker (c :: rest) = some ([], ds, after) := by
  simp only [findMarker, h]

/-- The `findMarker` step when the head starts no marker. -/
theorem findMarker_cons_none (c : Char) (rest : Str)
    (h : tryMarkerHere c rest = none) :
    findMarker (c :: rest) =
      match findMarker rest with
      | some (pre, ds, after) => some (c :: pre, ds, after)
      | none => none := by
  simp only [findMarker, h]

/-- The leftmost marker of `pre ++ '[' :: (ds ++ ']' :: after)` with a bracket-free
prefix is the explicit one. -/
theorem findMarker_at (pre ds after : Str) (hpre : ∀ c ∈ pre, c ≠ '[')
    (hds : ds ≠ []) (hdig : ∀ c ∈ ds, c.isDigit = true) :
    findMarker (pre ++ '[' :: (ds ++ ']' :: after)) = some (pre, ds, after) := by
  induction pre with
  | nil =>
    rw [List.nil_append,
      findMarker_cons_some '[' _ ds after (tryMarkerHere_at ds after hds hdig)]
  | cons c pre1 ih =>
    rw [List.cons_append]
    have htm : tryMarkerHere c (pre1 ++ '[' :: (ds ++ ']' :: after)) = none := by
      unfold tryMarkerHere
      rw [if_neg (hpre c (by simp))]
    rw [findMarker_cons_none c _ htm, ih (fun x hx => hpre x (by simp [hx]))]

/-- The `bracketParts` unfolding when a marker is found. -/
theorem bracketParts_eq_some (s pre ds after : Str)
    (h : findMarker s = some (pre, ds, after)) :
    bracketParts s = pre :: ds :: bracketParts after := by
  rw [bracketParts]
  split
  · rename_i h2
    rw [h2] at h
    exact absurd h (by simp)
  · rename_i pre2 ds2 after2 h2
    rw [h2] at h
    simp only [Option.some.injEq, Prod.mk.injEq] at h
    obtain ⟨h3, h4, h5⟩ := h
    rw [h3, h4, h5]

/-- The `bracketParts` unfolding when no marker is found. -/
theorem bracketParts_eq_none (s : Str) (h : findMarker s = none) :
    bracketParts s = [s] := by
  rw [bracketParts]
  split
  · rfl
  · rename_i pre2 ds2 after2 h2
    rw [h2] at h
    exact absurd h (by simp)

/-- The concatenated document body `[d1]t1[d2]t2...[dn]tn`. -/
def joinMarkers : List (Str × Str) → Str
  | [] => []
  | (d, t) :: rest => '[' :: (d ++ ']' :: (t ++ joinMarkers rest))

/-- The alternating `re.split` parts after the leading prefix. -/
def partsFlat : List (Str × Str) → List Str
  | [] => []
  | (d, t) :: rest => d :: t :: partsFlat rest

/-- Python `re.split(r'\[(\d+)\]', ...)` on a well-formed marker document yields the
prefix followed by the alternating digit/text parts. -/
theorem bracketParts_at (items : List (Str × Str)) (pre : Str)
    (hpre : ∀ c ∈ pre, c ≠ '[')
    (hnum : ∀ p ∈ items, p.1 ≠ [] ∧ ∀ c ∈ p.1, c.isDigit = true)
    (hspan : ∀ p ∈ items, ∀ c ∈ p.2, c ≠ '[') :
    bracketParts (pre ++ joinMarkers items) = pre :: partsFlat items := by
  induction items generalizing pre with
  | nil =>
    simp only [joinMarkers, List.append_nil, partsFlat]
    exact bracketParts_eq_none _ (findMarker_none pre hpre)
  | cons p rest ih =>
    obtain ⟨d, t⟩ := p
    simp only [joinMarkers]
    have hfm : findMarker (pre ++ '[' :: (d ++ ']' :: (t ++ joinMarkers rest))) =
        some (pre, d, t ++ joinMarkers rest) :=
      findMarker_at pre d (t ++ joinMarkers rest) hpre
        (hnum (d, t) (by simp)).1 (hnum (d, t) (by simp)).2
    rw [bracketParts_eq_some _ _ _ _ hfm]
    rw [ih t (fun c hc => hspan (d, t) (by simp) c hc)
      (fun q hq => hnum q (by simp [hq])) (fun q hq => hspan q (by simp [hq]))]
    rfl

/-- The pairing loop on the alternating parts emits one tagged candidate per
marker when every span strips to something non-empty. -/
theorem collectPairsGo_flat (items : List (Str × Str))
    (h : ∀ p ∈ items, pyStrip p.2 ≠ []) :
    collectPairsGo (partsFlat items) =
      items.map (fun p => '[' :: p.1 ++ ']' :: ' ' :: pyStrip p.2) := by
  induction items with
  | nil => rfl
  | cons p rest ih =>
    obtain ⟨d, t⟩ := p
    simp only [partsFlat, collectPairsGo]
    rw [if_neg (h (d, t) (by simp))]
    rw [ih (fun q hq => h q (by simp [hq]))]
    rfl

/-- C8 (confirmed): a document of `n` bracket-numbered references — a bracket-free
prefix, then `[d1] t1 ... [dn] tn` with non-empty digit numbers and bracket-free
spans whose strip is non-empty — is split by the bracket strategy into exactly
`n` candidates, the `i`-th being the span between marker `i` and the next marker,
stripped and tagged with its bracket number. -/
theorem c8_bracket_segmentation (pre : Str) (items : List (Str × Str))
    (hne : items ≠ [])
    (hnum : ∀ p ∈ items, p.1 ≠ [] ∧ ∀ c ∈ p.1, c.isDigit = true)
    (hspan : ∀ p ∈ items, (∀ c ∈ p.2, c ≠ '[') ∧ pyStrip p.2 ≠ [])
    (hpre : ∀ c ∈ pre, c ≠ '[') :
    split_into_references (pre ++ joinMarkers items) =
      items.map (fun p => '[' :: p.1 ++ ']' :: ' ' :: pyStrip p.2) ∧
    (split_into_references (pre ++ joinMarkers items)).length = items.length := by
  have hparts := bracketParts_at items pre hpre hnum (fun p hp => (hspan p hp).1)
  have hsome : (findMarker (pre ++ joinMarkers items)).isSome = true := by
    match items, hne with
    | (d, t) :: rest, _ =>
      rw [joinMarkers, findMarker_at pre d (t ++ joinMarkers rest) hpre
        (hnum (d, t) (by simp)).1 (hnum (d, t) (by simp)).2]
      rfl
  have heq : split_into_references (pre ++ joinMarkers items) =
      items.map (fun p => '[' :: p.1 ++ ']' :: ' ' :: pyStrip p.2) := by
    unfold split_into_references
    rw [if_pos hsome, hparts]
    simp only [collectPairs]
    exact collectPairsGo_flat items (fun p hp => (hspan p hp).2)
  exact ⟨heq, by rw [heq]; simp⟩

/-- C8 witness: `c8_bracket_segmentation` on a concrete two-reference document. -/
theorem c8_witness :
    split_into_references (str "Early text " ++
        joinMarkers [(str "1", str " first reference text here "),
                     (str "2", str " second reference text here ")]) =
      [str "[1] first reference text here", str "[2] second reference text here"] := by
  have h := (c8_bracket_segmentation (str "Early text ")
    [(str "1", str " first reference text here "), (str "2", str " second reference text here ")]
    (by decide) (by decide) (by decide) (by decide)).1
  rw [h]
  decide

/-! ## Claim C9 — empty and whitespace-only input -/

deriving instance DecidableEq for Except

/-- C9 counterexample: whitespace-only raw text passes the fatal gate of
`extract_references_from_pdf` (Python's `if not text:` is false for `"   "`),
and `extract_references_from_text` silently returns an empty reference list for
both empty and whitespace-only input instead of failing. -/
theorem c9_counterexample :
    pdf_text_check (str "   ") = Except.ok (str "   ") ∧
    extract_references_from_text (str "   ") = [] ∧
    extract_references_from_text [] = [] := by
  decide

/-- C9 (amended): only exactly-empty extracted text trips the fatal check of
`extract_references_from_pdf`; any non-empty text — whitespace-only included —
passes it, and the text pipeline itself never fails: it returns a (possibly
empty) list, e.g. the empty list for whitespace-only input. -/
theorem c9_empty_input (t : Str) (h : t ≠ []) :
    pdf_text_check t = Except.ok t ∧
    pdf_text_check [] = Except.error (str "No text could be extracted from the PDF") ∧
    extract_references_from_text (str "   ") = [] := by
  refine ⟨?_, by decide, by decide⟩
  unfold pdf_text_check
  rw [if_neg h]

/-- C9 witness: `c9_empty_input` at the whitespace-only text. -/
theorem c9_witness :
    pdf_text_check (str "   ") = Except.ok (str "   ") ∧
    pdf_text_check [] = Except.error (str "No text could be extracted from the PDF") ∧
    extract_references_from_text (str "   ") = [] :=
  c9_empty_input (str "   ") (by decide)

/-! ## Claim C10 — specification example 2 -/

/-- C10 counterexample: the full pipeline returns the empty list on the bare
example string — it has no references-section header and no bracket markers, so
neither segmentation pass produces a candidate — and hence produces no record
with the claimed fields. -/
theorem c10_counterexample :
    extract_references_from_text johnsonText = [] := by
  decide

set_option maxRecDepth 8000 in
/-- C10 (amended): the full pipeline yields no record for the bare example
string, but the per-candidate parser on it produces exactly the claimed fields:
year 2022, title "Data Science Fundamentals", venue "Academic Press",
reference type "book". -/
theorem c10_example :
    (parse_single_reference johnsonText 1).year = some 2022 ∧
    (parse_single_reference johnsonText 1).title = str "Data Science Fundamentals" ∧
    (parse_single_reference johnsonText 1).venue = str "Academic Press" ∧
    (parse_single_reference johnsonText 1).reference_type = str "book" ∧
    extract_references_from_text johnsonText = [] := by
  refine ⟨by decide, by decide, by decide, by decide, by decide⟩
